import Mathlib

/-!
# Verification of the Reflow-profiler datasheet pipeline (`src/Reflow.py`)

A shallow embedding of the datasheet-scouring / reflow-parameter-extraction
core of `Reflow.py`, together with proofs settling the frozen claims about it.

Modelling conventions:
* Python strings are Lean `String`s; character-level work happens on `.data`
  (`List Char`), because the primitives of `Reflow.py` (strip, lower, replace,
  substring test) are re-implemented here character by character, faithful to
  Python semantics on the ASCII inputs the program deals with.
* Bytes (`bytes`) are `List Nat`.
* External I/O (the search HTTP GET, the datasheet HTTP GET, `pypdf`s text
  extraction) is abstracted as an `Oracle` of `Except`-returning functions:
  a `.error` models a raised exception in the library / network call.
* Python floats appearing in the (dead) unit-conversion helpers are `ℚ`.
* The regular expressions of the extraction engine are embedded via a small
  backtracking matcher (`reM`) with Python `re` semantics: leftmost match,
  alternation priority left to right, greedy / lazy quantifiers, numbered
  capture groups, `IGNORECASE`.
-/

namespace ReflowProfiler

/-! ## Python string primitives (over `List Char`) -/

/-- Python whitespace for `str.strip` / `\s`, restricted to ASCII
(the program only ever meets ASCII whitespace). -/
def wsb (c : Char) : Bool :=
  c = ' ' || c = '\t' || c = '\n' || c = '\r' || c = '\x0b' || c = '\x0c'

/-- Leading-whitespace removal (the left half of Python `str.strip`). -/
def trimL (l : List Char) : List Char := l.dropWhile wsb

/-- Trailing-whitespace removal (the right half of Python `str.strip`). -/
def trimR : List Char → List Char
  | [] => []
  | c :: rest =>
    match trimR rest with
    | [] => if wsb c then [] else [c]
    | r => c :: r

/-- Python `str.strip()` on a character list. -/
def pyStripL (l : List Char) : List Char := trimR (trimL l)

/-- Python `str.strip()`. -/
def pyStrip (s : String) : String := ⟨pyStripL s.data⟩

/-- Python `str.lower()` (ASCII; the tokens compared in `Reflow.py` are ASCII). -/
def pyLowerL (l : List Char) : List Char := l.map Char.toLower

/-- Python `str.lower()`. -/
def pyLower (s : String) : String := ⟨pyLowerL s.data⟩

/-- Does `l` start with `p`? (used for substring search and `str.replace`;
generic so it serves both `str` and `bytes`). -/
def startsWithL {α : Type} [DecidableEq α] : List α → List α → Bool
  | [], _ => true
  | _ :: _, [] => false
  | p :: ps, c :: cs => p = c && startsWithL ps cs

/-- Python `needle in hay` (contiguous substring test). -/
def containsSubL {α : Type} [DecidableEq α] (needle : List α) : List α → Bool
  | [] => needle.isEmpty
  | c :: rest => startsWithL needle (c :: rest) || containsSubL needle rest

/-- Python `needle in hay` on strings. -/
def strContains (hay needle : String) : Bool := containsSubL needle.data hay.data

/-- The scan loop of Python `str.replace(pat, rep)` (replace every
non-overlapping occurrence, left to right), with a step-count fuel so the
recursion is structural; the fuel passed by `replaceL` always suffices.
`pat` is never empty in `Reflow.py`. -/
def replaceLAux (pat rep : List Char) : Nat → List Char → List Char
  | 0, l => l
  | Nat.succ _, [] => []
  | Nat.succ f, c :: rest =>
    if startsWithL pat (c :: rest) then
      match pat with
      | [] => c :: replaceLAux pat rep f rest
      | _ :: ps => rep ++ replaceLAux pat rep f ((c :: rest).drop (ps.length + 1))
    else c :: replaceLAux pat rep f rest

/-- Python `str.replace(pat, rep)`. -/
def replaceL (pat rep l : List Char) : List Char := replaceLAux pat rep (l.length + 1) l

/-- Python `str.replace` on strings. -/
def strReplace (s pat rep : String) : String := ⟨replaceL pat.data rep.data s.data⟩

/-- Collapse each run of characters satisfying `p` to the single character
`rep`: the effect of `re.sub(r"X+", rep, s)` for a character class `X`.
The flag tells whether the previous character belonged to a run. -/
def collapseRunsAux (p : Char → Bool) (rep : Char) : List Char → Bool → List Char
  | [], _ => []
  | c :: rest, inRun =>
    if p c then
      if inRun then collapseRunsAux p rep rest true
      else rep :: collapseRunsAux p rep rest true
    else c :: collapseRunsAux p rep rest false

def collapseRuns (p : Char → Bool) (rep : Char) (l : List Char) : List Char :=
  collapseRunsAux p rep l false

/-- `re.sub(r"[ \t]+", " ", text)`: collapse each run of spaces/tabs to one space. -/
def collapseSpaces (l : List Char) : List Char :=
  collapseRuns (fun c => c = ' ' || c = '\t') ' ' l

/-- `re.sub(r"\n{2,}", "\n", t)`: a run of two or more newlines becomes one
newline; a lone newline already is one, so every newline run collapses to one. -/
def collapseNewlines (l : List Char) : List Char :=
  collapseRuns (fun c => c = '\n') '\n' l

/-- `re.sub(r"\s+", " ", s)`: collapse each whitespace run to one space. -/
def collapseWs (l : List Char) : List Char :=
  collapseRuns wsb ' ' l

/-- Code-point lexicographic `≤` on character lists: Python string comparison. -/
def lexLe : List Char → List Char → Bool
  | [], _ => true
  | _ :: _, [] => false
  | a :: as, b :: bs =>
    if a.toNat < b.toNat then true
    else if b.toNat < a.toNat then false
    else lexLe as bs

/-- The comparison used by `sorted(..., key=lambda s: s.lower())`:
case-insensitive lexicographic order on strings. -/
def lowerLe (a b : String) : Bool := lexLe (pyLowerL a.data) (pyLowerL b.data)

/-- The same comparison as a (decidable) relation. -/
def lowerLeR (a b : String) : Prop := lowerLe a b = true

instance : DecidableRel lowerLeR := fun a b => instDecidableEqBool (lowerLe a b) true

/-! ## A small regex engine with Python `re` semantics

`Reflow.py`s extraction engine is a set of `re.search` calls with
`IGNORECASE`.  The patterns are embedded as `RE` terms below; `reM` is a
backtracking matcher giving Python priority semantics (leftmost position,
left alternative first, greedy/lazy quantifiers), with numbered groups. -/

/-- Regex syntax: character classes are predicates; `star` is greedy,
`starL` lazy (`*?`); `opt` is greedy `?`; `grp` is a numbered capture group. -/
inductive RE : Type where
  | eps : RE
  | cls : (Char → Bool) → RE
  | seq : RE → RE → RE
  | alt : RE → RE → RE
  | star : RE → RE
  | starL : RE → RE
  | opt : RE → RE
  | grp : Nat → RE → RE

/-- Capture environment: group number to captured characters
(`none` = the group did not participate in the match). -/
def Caps : Type := Nat → Option (List Char)

def caps0 : Caps := fun _ => none

def updCap (cp : Caps) (n : Nat) (v : List Char) : Caps :=
  fun i => if i = n then some v else cp i

/-- Backtracking matcher in CPS.  `reM fuel r s cp k` tries to match `r`
against a prefix of `s`, calling `k rest cp2` on each candidate split in
Python priority order; the first success wins.  `fuel` bounds the recursion
(in all uses below it is far larger than any backtracking run needs). -/
def reM {α : Type} : Nat → RE → List Char → Caps → (List Char → Caps → Option α) → Option α
  | 0, _, _, _, _ => none
  | Nat.succ f, r, s, cp, k =>
    match r with
    | .eps => k s cp
    | .cls p =>
      match s with
      | [] => none
      | c :: rest => if p c then k rest cp else none
    | .seq a b => reM f a s cp (fun s2 cp2 => reM f b s2 cp2 k)
    | .alt a b =>
      match reM f a s cp k with
      | some res => some res
      | none => reM f b s cp k
    | .opt a =>
      match reM f a s cp k with
      | some res => some res
      | none => k s cp
    | .star a =>
      match reM f a s cp (fun s2 cp2 => reM f (.star a) s2 cp2 k) with
      | some res => some res
      | none => k s cp
    | .starL a =>
      match k s cp with
      | some res => some res
      | none => reM f a s cp (fun s2 cp2 => reM f (.starL a) s2 cp2 k)
    | .grp n a =>
      reM f a s cp (fun s2 cp2 => k s2 (updCap cp2 n (s.take (s.length - s2.length))))

/-- Fuel used per match attempt; generous for every concrete run in this file. -/
def reFuel : Nat := 1000000

/-- `re.search` position loop: try to match at each position, leftmost wins.
Returns the start index and the capture environment. -/
def reSearchAux (r : RE) : List Char → Nat → Option (Nat × Caps)
  | [], idx =>
    match reM reFuel r [] caps0 (fun _ cp => some cp) with
    | some cp => some (idx, cp)
    | none => none
  | s@(_ :: t), idx =>
    match reM reFuel r s caps0 (fun _ cp => some cp) with
    | some cp => some (idx, cp)
    | none => reSearchAux r t (idx + 1)

/-- `re.search(pattern, s)`: leftmost match with captures, or `none`. -/
def reSearch (r : RE) (s : List Char) : Option (Nat × Caps) := reSearchAux r s 0

/-! ### Pattern combinators mirroring the regex source text -/

/-- A case-insensitive literal character (`re.IGNORECASE`). -/
def ich (c : Char) : RE := .cls (fun x => x.toLower = c.toLower)

/-- A case-insensitive literal string. -/
def reStr (s : String) : RE := s.data.foldr (fun c acc => RE.seq (ich c) acc) RE.eps

/-- Concatenation of a pattern list. -/
def reCat (l : List RE) : RE := l.foldr RE.seq RE.eps

/-- Alternation chain, left priority first (`a|b|c`). -/
def reAlts : List RE → RE
  | [] => .cls (fun _ => false)
  | [r] => r
  | r :: rest => .alt r (reAlts rest)

/-- `\s` -/
def reWs1 : RE := .cls wsb

/-- `\s*` -/
def reWs : RE := .star reWs1

/-- `\d` -/
def reDigit : RE := .cls Char.isDigit

/-- `.` (any character but newline; no `DOTALL` in `Reflow.py`). -/
def reDot : RE := .cls (fun c => c != '\n')

/-- A literal (case-less) character. -/
def rch (c : Char) : RE := .cls (fun x => x = c)

/-! ### The extraction patterns of `_extract_reflow_fields_from_text` -/

/-- `[:=]?` -/
def reColonEq : RE := .opt (.cls (fun c => c = ':' || c = '='))

/-- `(?:\.\d+)?` -/
def reFrac : RE := .opt (reCat [rch '.', reDigit, .star reDigit])

/-- `\d{2,3}(?:\.\d+)?` -/
def reNum23 : RE := reCat [reDigit, reDigit, .opt reDigit, reFrac]

/-- `\d+(?:\.\d+)?` -/
def reNumPlus : RE := reCat [reDigit, .star reDigit, reFrac]

/-- `(?:[–\-]|to)?` — optional range separator. -/
def reSepDash : RE := .opt (.alt (.cls (fun c => c = '–' || c = '-')) (reStr "to"))

/-- `°?\s*C` -/
def reDegC : RE := reCat [.opt (rch '°'), reWs, ich 'C']

/-- `(s|sec|secs|seconds|min|mins|minutes)` in source order. -/
def reUnitTime : RE :=
  reAlts [reStr "s", reStr "sec", reStr "secs", reStr "seconds",
          reStr "min", reStr "mins", reStr "minutes"]

/-- `°?\s*C\s*/\s*s` -/
def reRateS : RE := reCat [.opt (rch '°'), reWs, ich 'C', reWs, rch '/', reWs, ich 's']

/-- `°?\s*C\s*/\s*min` -/
def reRateMin : RE := reCat [.opt (rch '°'), reWs, ich 'C', reWs, rch '/', reWs, reStr "min"]

/-- `(°?\s*C\s*/\s*s|°?\s*C\s*/\s*min)` without the group. -/
def reUnitRate : RE := .alt reRateS reRateMin

/-- The shared tail `\s*[:=]?\s*(NUM)\s*(?:[–\-]|to)?\s*(NUM)?\s*UNIT` where the
unit argument carries group 3 (possibly optional). -/
def reRangeTail (num unit : RE) : RE :=
  reCat [reWs, reColonEq, reWs, .grp 1 num, reWs, reSepDash, reWs,
         .opt (.grp 2 num), reWs, unit]

/-- `[\- ]?` in `Ramp[\- ]?up` etc. -/
def reDashSp : RE := .opt (.cls (fun c => c = '-' || c = ' '))

/-- Tp pattern 1:
`(?:Peak package body temperature|Peak temperature|Tp)\s*[:=]?\s*(\d{2,3}(?:\.\d+)?)\s*(?:[–\-]|to)?\s*(\d{2,3}(?:\.\d+)?)?\s*(°?\s*C)` -/
def tpPat1 : RE :=
  .seq (reAlts [reStr "Peak package body temperature", reStr "Peak temperature", reStr "Tp"])
       (reRangeTail reNum23 (.grp 3 reDegC))

/-- Tp pattern 2:
`(?:Tp)\s*\(\s*°?\s*C\s*\)\s*[:=]?\s*(\d{2,3}(?:\.\d+)?)\s*(?:[–\-]|to)?\s*(\d{2,3}(?:\.\d+)?)?\s*(°?\s*C)?` -/
def tpPat2 : RE :=
  .seq (reCat [reStr "Tp", reWs, rch '(', reWs, .opt (rch '°'), reWs, ich 'C', reWs, rch ')'])
       (reRangeTail reNum23 (.opt (.grp 3 reDegC)))

def tpPatterns : List RE := [tpPat1, tpPat2]

/-- within-5-°C-of-peak pattern 1 prefix:
`(?:Time within\s*5\s*°?\s*C\s*(?:of)?\s*(?:peak|Tp|T[pP]))` -/
def within5Pat1 : RE :=
  .seq (reCat [reStr "Time within", reWs, rch '5', reWs, .opt (rch '°'), reWs, ich 'C',
               reWs, .opt (reStr "of"), reWs,
               reAlts [reStr "peak", reStr "Tp",
                       .seq (ich 'T') (.cls (fun c => c = 'p' || c = 'P'))]])
       (reRangeTail reNumPlus (.grp 3 reUnitTime))

/-- within-5-°C-of-peak pattern 2 prefix: `(?:tP|tP\(?\s*within\s*5\s*°?\s*C\)?)` -/
def within5Pat2 : RE :=
  .seq (reAlts [reStr "tP",
                reCat [reStr "tP", .opt (rch '('), reWs, reStr "within", reWs, rch '5',
                       reWs, .opt (rch '°'), reWs, ich 'C', .opt (rch ')')]])
       (reRangeTail reNumPlus (.grp 3 reUnitTime))

def within5Patterns : List RE := [within5Pat1, within5Pat2]

/-- TAL pattern 1 prefix: `(?:Time above liquidus|TAL)` -/
def talPat1 : RE :=
  .seq (reAlts [reStr "Time above liquidus", reStr "TAL"])
       (reRangeTail reNumPlus (.grp 3 reUnitTime))

/-- TAL pattern 2 prefix: `(?:Time above liquidus)\s*\(.*?TAL.*?\)` -/
def talPat2 : RE :=
  .seq (reCat [reStr "Time above liquidus", reWs, rch '(',
               .starL reDot, reStr "TAL", .starL reDot, rch ')'])
       (reRangeTail reNumPlus (.grp 3 reUnitTime))

def talPatterns : List RE := [talPat1, talPat2]

/-- Ramp-up pattern 1 prefix: `(?:Ramp[\- ]?up rate|Heating rate|Ramp rate)` -/
def rampUpPat1 : RE :=
  .seq (reAlts [reCat [reStr "Ramp", reDashSp, reStr "up rate"],
                reStr "Heating rate", reStr "Ramp rate"])
       (reRangeTail reNumPlus (.grp 3 reUnitRate))

/-- Ramp-up pattern 2 prefix: `(?:Ramp[\- ]?up)` -/
def rampUpPat2 : RE :=
  .seq (reCat [reStr "Ramp", reDashSp, reStr "up"])
       (reRangeTail reNumPlus (.grp 3 reUnitRate))

def rampUpPatterns : List RE := [rampUpPat1, rampUpPat2]

/-- Cool-down pattern 1 prefix: `(?:Ramp[\- ]?down rate|Cooling rate|Cool(?:ing)? rate)` -/
def coolDownPat1 : RE :=
  .seq (reAlts [reCat [reStr "Ramp", reDashSp, reStr "down rate"],
                reStr "Cooling rate",
                reCat [reStr "Cool", .opt (reStr "ing"), reStr " rate"]])
       (reRangeTail reNumPlus (.grp 3 reUnitRate))

/-- Cool-down pattern 2 prefix: `(?:Ramp[\- ]?down|Cool(?:ing)?)` -/
def coolDownPat2 : RE :=
  .seq (reAlts [reCat [reStr "Ramp", reDashSp, reStr "down"],
                reCat [reStr "Cool", .opt (reStr "ing")]])
       (reRangeTail reNumPlus (.grp 3 reUnitRate))

def coolDownPatterns : List RE := [coolDownPat1, coolDownPat2]

/-! ## The field extraction engine -/

/-- The sentinel `NA` of `Reflow.py`. -/
def NA : String := "NA"

/-- `norm_dash`: `s.replace(" - ", "–").replace("-", "–").replace(" to ", "–")`. -/
def normDash (s : String) : String :=
  strReplace (strReplace (strReplace s " - " "–") "-" "–") " to " "–"

/-- `find_range_value` of `_extract_reflow_fields_from_text`: first pattern
that matches wins; group 1 = first number, group 2 = optional second number,
group 3 = unit; renders `"a-b unit"` or `"a unit"`, stripped, dash-normalised. -/
def findRangeValue (pats : List RE) (t : List Char) : String :=
  match pats with
  | [] => NA
  | p :: rest =>
    match reSearch p t with
    | none => findRangeValue rest t
    | some (_, cp) =>
      let a := (cp 1).getD []
      let b := cp 2
      let unit := pyStripL ((cp 3).getD [])
      let bTruthy := match b with
        | some bs => !bs.isEmpty
        | none => false
      let raw := if bTruthy then pyStripL (a ++ '-' :: (b.getD []) ++ ' ' :: unit)
                 else pyStripL (a ++ ' ' :: unit)
      normDash ⟨raw⟩

/-- The five raw string fields of the result dict (`tp_c`, …): each a
unit-annotated string or `NA`. -/
structure ReflowProfile where
  tp_c : String
  time_within_5c_of_tp_s : String
  tal_s : String
  ramp_up_c_per_s : String
  cool_down_c_per_s : String
deriving DecidableEq, Repr

/-- `_extract_reflow_fields_from_text`: whitespace normalisation, then the five
field extractions with their per-field post-processing. -/
def extractReflowFieldsFromText (text : String) : ReflowProfile :=
  let t := collapseNewlines (collapseSpaces text.data)
  let tp0 := findRangeValue tpPatterns t
  let tp := if tp0 = NA then tp0
            else if strContains (pyLower tp0) "c" then tp0
            else tp0 ++ " °C"
  let within5 := findRangeValue within5Patterns t
  let tal := findRangeValue talPatterns t
  let rampUp0 := findRangeValue rampUpPatterns t
  let rampUp := strReplace (strReplace (strReplace rampUp0 "° C" "°C") "C /" "°C/") " / " "/"
  let coolDown0 := findRangeValue coolDownPatterns t
  let coolDown := strReplace (strReplace (strReplace coolDown0 "° C" "°C") "C /" "°C/") " / " "/"
  { tp_c := tp
    time_within_5c_of_tp_s := within5
    tal_s := tal
    ramp_up_c_per_s := rampUp
    cool_down_c_per_s := coolDown }

/-- `all(fields[k] == NA for k in fields)` over the five fields. -/
def profileAllNA (p : ReflowProfile) : Bool :=
  decide (p.tp_c = NA) && decide (p.time_within_5c_of_tp_s = NA) &&
  decide (p.tal_s = NA) && decide (p.ramp_up_c_per_s = NA) &&
  decide (p.cool_down_c_per_s = NA)

/-- The evidence keyword pattern `(reflow|liquidus|TAL|Tp|peak temperature|ramp)`. -/
def evidenceKeywordRE : RE :=
  .grp 1 (reAlts [reStr "reflow", reStr "liquidus", reStr "TAL", reStr "Tp",
                  reStr "peak temperature", reStr "ramp"])

/-- The evidence snippet of `_scour_datasheet_and_extract`: a ±(120/220)-char
window around the first keyword occurrence in the raw text, whitespace
collapsed and stripped; `NA` when no keyword occurs. -/
def evidenceSnippet (text : String) : String :=
  match reSearch evidenceKeywordRE text.data with
  | none => NA
  | some (start, _) =>
    let st := start - 120
    let en := min text.data.length (start + 220)
    ⟨pyStripL (collapseWs ((text.data.drop st).take (en - st)))⟩

/-! ## Unit-conversion helpers (`_to_seconds`, defined in the source but never
invoked by the extraction path; values are `ℚ` standing for Python floats). -/

/-- `_to_seconds`: seconds unchanged, minutes ×60, unknown unit unchanged. -/
def toSeconds (value : ℚ) (unit : String) : ℚ :=
  if pyLower unit ∈ ["s", "sec", "secs", "second", "seconds"] then value
  else if pyLower unit ∈ ["min", "mins", "minute", "minutes"] then value * 60
  else value

/-! ## The pipeline orchestrator (`_scour_datasheet_and_extract`)

External effects are an `Oracle`; a raised Python exception in a stage is an
`Except.error`.  The orchestrator itself is total: its `try`/`except` is the
final `match`, so no error value ever escapes it.  A log of `Ev` events
records which stages actually ran (network calls, extraction, cache use). -/

/-- A raised Python exception (the payload carries no meaning for the catch-all). -/
inductive PyErr : Type where
  | valueError : String → PyErr
  | netError : PyErr
  | libError : PyErr
deriving DecidableEq, Repr

/-- The external world: the DuckDuckGo search (`_search_candidate_urls`, whose
HTML harvesting is driven entirely by the remote response), a raw HTTP GET
(`_http_get`), and `pypdf` text extraction (`_pdf_to_text`, driven by the
`PdfReader` library; its page cap argument is passed through). -/
structure Oracle : Type where
  search : String → Except PyErr (List String)
  httpGet : String → Except PyErr (List Nat)
  pdfToText : List Nat → Nat → Except PyErr String

/-- Stage events, in the order the pipeline performs them. -/
inductive Ev : Type where
  | cacheLookup : Ev
  | searchCall : Ev
  | downloadCall : Ev
  | pdfToTextCall : Ev
  | extractFieldsCall : Ev
  | cacheStore : Ev
deriving DecidableEq, Repr

/-- The `evidence` sub-dict of a result. -/
structure Evidence : Type where
  source_url : String
  snippet : String
deriving DecidableEq, Repr

/-- A result record (`{mpn, status, reflow, evidence}`): the only value the
pipeline ever hands back to its caller. -/
structure ReflowResult : Type where
  mpn : String
  status : String
  reflow : ReflowProfile
  evidence : Evidence
deriving DecidableEq, Repr

/-- The all-`NA` profile used by `_na_reflow_result`. -/
def naProfile : ReflowProfile :=
  { tp_c := NA, time_within_5c_of_tp_s := NA, tal_s := NA,
    ramp_up_c_per_s := NA, cool_down_c_per_s := NA }

/-- `_na_reflow_result(mpn, status)`: a terminal record with every profile and
evidence field `NA`. -/
def naReflowResult (mpn status : String) : ReflowResult :=
  { mpn := mpn, status := status, reflow := naProfile,
    evidence := { source_url := NA, snippet := NA } }

/-- `_is_na_mpn`: blank after trimming, or one of the placeholder tokens
(case-insensitive).  (The Python `None` guard has no counterpart: Lean
strings are never null.) -/
def naTokens : List String := ["na", "n/a", "tbd", "unknown", "-"]

def isNaMpn (mpn : String) : Bool :=
  let v := pyStrip mpn
  if v = "" then true
  else decide (pyLower v ∈ naTokens)

/-- `_SCRAPE_CACHE`: an insert-at-front association list; lookup takes the
most recent binding, like a Python dict where each key is written once. -/
abbrev Cache : Type := List (String × ReflowResult)

def cacheGet (k : String) : Cache → Option ReflowResult
  | [] => none
  | (k2, r) :: rest => if k = k2 then some r else cacheGet k rest

def cacheInsert (k : String) (r : ReflowResult) (c : Cache) : Cache := (k, r) :: c

/-- `".pdf" in u.lower()` — the candidate preference test of `_pick_pdf_link`. -/
def hasPdfSub (u : String) : Bool := containsSubL ".pdf".data (pyLowerL u.data)

/-- The scan loop of `_pick_pdf_link`: first URL containing `".pdf"`
(case-insensitively). -/
def pickPdfLoop : List String → Option String
  | [] => none
  | u :: rest => if hasPdfSub u then some u else pickPdfLoop rest

/-- `_pick_pdf_link(urls, mpn)`: prefer the first `.pdf` URL, else the first
candidate, else `None`. -/
def pickPdfLink (urls : List String) (_mpn : String) : Option String :=
  match pickPdfLoop urls with
  | some u => some u
  | none => urls.head?

/-- `bytes.lower()` on one byte (ASCII `A`–`Z` only, as in Python). -/
def byteLower (b : Nat) : Nat := if 65 ≤ b ∧ b ≤ 90 then b + 32 else b

/-- `b"%pdf" in data[:512].lower()` — the magic-signature sanity check of
`_download_pdf_bytes`.  `[37, 112, 100, 102]` is `%pdf`. -/
def hasPdfMagic (data : List Nat) : Bool :=
  containsSubL [37, 112, 100, 102] ((data.take 512).map byteLower)

/-- `_download_pdf_bytes(url)`: one GET, then the magic check; a body without
the signature raises `ValueError`. -/
def downloadPdfBytes (o : Oracle) (url : String) : Except PyErr (List Nat) :=
  match o.httpGet url with
  | .error e => .error e
  | .ok data =>
    if hasPdfMagic data then .ok data
    else .error (.valueError "Downloaded content is not a PDF")

/-- The `try:` block of `_scour_datasheet_and_extract`, for an identifier that
is neither not-applicable nor cached.  Returns the outcome (a propagating
exception, or a result plus the updated cache) together with the events the
block performed before finishing. -/
def scourTry (o : Oracle) (c : Cache) (mpnNorm : String) :
    Except PyErr (ReflowResult × Cache) × List Ev :=
  match o.search mpnNorm with
  | .error e => (.error e, [.searchCall])
  | .ok urls =>
    match pickPdfLink urls mpnNorm with
    | none =>
      let res := naReflowResult mpnNorm "not_found"
      (.ok (res, cacheInsert mpnNorm res c), [.searchCall, .cacheStore])
    | some pick =>
      if pick = "" then
        -- `if not pick:` also fires on an empty-string candidate
        let res := naReflowResult mpnNorm "not_found"
        (.ok (res, cacheInsert mpnNorm res c), [.searchCall, .cacheStore])
      else
        match downloadPdfBytes o pick with
        | .error e => (.error e, [.searchCall, .downloadCall])
        | .ok pdfBytes =>
          match o.pdfToText pdfBytes 25 with
          | .error e => (.error e, [.searchCall, .downloadCall, .pdfToTextCall])
          | .ok text =>
            -- the Python local `fields` is inlined at both of its two uses
            if profileAllNA (extractReflowFieldsFromText text) then
              let res0 := naReflowResult mpnNorm "no_reflow_info"
              let res := { res0 with evidence := { res0.evidence with source_url := pick } }
              (.ok (res, cacheInsert mpnNorm res c),
               [.searchCall, .downloadCall, .pdfToTextCall, .extractFieldsCall, .cacheStore])
            else
              let res : ReflowResult :=
                { mpn := mpnNorm, status := "ok", reflow := extractReflowFieldsFromText text,
                  evidence := { source_url := pick, snippet := evidenceSnippet text } }
              (.ok (res, cacheInsert mpnNorm res c),
               [.searchCall, .downloadCall, .pdfToTextCall, .extractFieldsCall, .cacheStore])

/-- `_scour_datasheet_and_extract(mpn)`: trim, not-applicable short-circuit,
cache lookup, then the `try:` block; the final `match` is the
`except Exception:` catch-all, so the function is total — no stage failure
ever reaches the caller.  Returns (result, cache after, events). -/
def scour (o : Oracle) (c : Cache) (mpn : String) : ReflowResult × Cache × List Ev :=
  let mpnNorm := pyStrip mpn
  if isNaMpn mpnNorm then (naReflowResult mpnNorm "mpn_na", c, [])
  else
    match cacheGet mpnNorm c with
    | some res => (res, c, [.cacheLookup])
    | none =>
      match scourTry o c mpnNorm with
      | (.ok (res, c2), evs) => (res, c2, .cacheLookup :: evs)
      | (.error _, evs) =>
        let res := naReflowResult mpnNorm "error_or_blocked"
        (res, cacheInsert mpnNorm res c, (.cacheLookup :: evs) ++ [.cacheStore])

/-! ## The per-batch driver (`_run_component_agent_mpn_only`)

The BOM plumbing is out of scope; the embedding takes the raw `MPN`-column
cell values.  The source builds `mpns` (trim; blank cell becomes the string
`"NA"`), takes `sorted(set(mpns), key=lambda s: s.lower())`, and runs the
pipeline once per element in that order.  `set` iteration order is
unspecified in Python; `List.dedup` stands in for `set`, and every theorem
below about this function is insensitive to the tie order of case-variants. -/

/-- The `mpns` list: each cell trimmed, blanks replaced by `"NA"`. -/
def preprocMpns (cells : List String) : List String :=
  cells.map (fun r => let v := pyStrip r; if v = "" then NA else v)

/-- `sorted(set(mpns), key=lambda s: s.lower())`.  (`sorted` is a stable sort;
`insertionSort` is one too, and stability only matters for the tie order of
case-variants, which `set` iteration leaves unspecified anyway.) -/
def uniqueMpns (cells : List String) : List String :=
  ((preprocMpns cells).dedup).insertionSort lowerLeR

/-- The result-collection loop, threading the scrape cache left to right. -/
def scourAll (o : Oracle) : List String → Cache → List ReflowResult × Cache
  | [], c => ([], c)
  | m :: rest, c =>
    let step := scour o c m
    let tail := scourAll o rest step.2.1
    (step.1 :: tail.1, tail.2)

/-- `_run_component_agent_mpn_only`, restricted to its MPN/pipeline core:
one pipeline invocation per element of `uniqueMpns`, in order. -/
def runComponentAgent (o : Oracle) (c : Cache) (cells : List String) :
    List ReflowResult × Cache :=
  scourAll o (uniqueMpns cells) c

/-! ## Helper lemmas -/

lemma dropWhile_dropWhile (p : Char → Bool) (l : List Char) :
    (l.dropWhile p).dropWhile p = l.dropWhile p := by
  induction l with
  | nil => rfl
  | cons a t ih =>
    by_cases h : p a = true
    · simp [List.dropWhile_cons, h, ih]
    · simp [List.dropWhile_cons, h]

lemma trimL_trimL (l : List Char) : trimL (trimL l) = trimL l :=
  dropWhile_dropWhile wsb l

lemma trimR_head (l : List Char) : trimR l = [] ∨ (trimR l).head? = l.head? := by
  induction l with
  | nil => exact Or.inl rfl
  | cons c rest _ =>
    cases h : trimR rest with
    | nil =>
      by_cases hw : wsb c = true
      · left; simp [trimR, h, hw]
      · right; simp [trimR, h, hw]
    | cons x xs => right; simp [trimR, h]

lemma trimR_idem (l : List Char) : trimR (trimR l) = trimR l := by
  induction l with
  | nil => rfl
  | cons c rest ih =>
    cases h : trimR rest with
    | nil =>
      by_cases hw : wsb c = true
      · simp [trimR, h, hw]
      · simp [trimR, h, hw]
    | cons x xs =>
      rw [h] at ih
      simp only [trimR, h]
      simp only [trimR] at ih
      rw [ih]

lemma head_trimL (l : List Char) (c : Char) (h : (trimL l).head? = some c) :
    wsb c = false := by
  induction l with
  | nil => simp [trimL] at h
  | cons a t ih =>
    by_cases hw : wsb a = true
    · exact ih (by simpa [trimL, List.dropWhile_cons, hw] using h)
    · have : a = c := by simpa [trimL, List.dropWhile_cons, hw] using h
      subst this
      simpa using hw

lemma trimL_eq_self (l : List Char) (h : ∀ c, l.head? = some c → wsb c = false) :
    trimL l = l := by
  cases l with
  | nil => rfl
  | cons a t => simp [trimL, List.dropWhile_cons, h a rfl]

lemma pyStripL_idem (l : List Char) : pyStripL (pyStripL l) = pyStripL l := by
  unfold pyStripL
  have h2 : trimL (trimR (trimL l)) = trimR (trimL l) := by
    apply trimL_eq_self
    intro c hc
    rcases trimR_head (trimL l) with h | h
    · rw [h] at hc; simp at hc
    · rw [h] at hc; exact head_trimL l c hc
  rw [h2, trimR_idem]

lemma pyStrip_idem (s : String) : pyStrip (pyStrip s) = pyStrip s :=
  congrArg String.mk (pyStripL_idem s.data)

lemma isNaMpn_pyStrip (s : String) : isNaMpn (pyStrip s) = isNaMpn s := by
  unfold isNaMpn
  rw [pyStrip_idem]

/-- The five terminal statuses the orchestrator can assign. -/
def terminalStatuses : List String :=
  ["ok", "mpn_na", "not_found", "no_reflow_info", "error_or_blocked"]

/-- Well-formedness of a cache state: every stored record carries a terminal
status and is stored under its own (trimmed) identifier.  The pipeline only
ever stores such records. -/
def CacheWF (c : Cache) : Prop :=
  ∀ k r, cacheGet k c = some r → r.status ∈ terminalStatuses ∧ r.mpn = k

/-- Key sanity of a cache state: no entry is stored under a not-applicable
identifier.  The pipeline never creates such an entry. -/
def CacheKeysOk (c : Cache) : Prop :=
  ∀ k r, cacheGet k c = some r → isNaMpn k = false

lemma cacheGet_insert (k k2 : String) (r : ReflowResult) (c : Cache) :
    cacheGet k (cacheInsert k2 r c) = if k = k2 then some r else cacheGet k c := rfl

lemma cacheGet_insert_self (k : String) (r : ReflowResult) (c : Cache) :
    cacheGet k (cacheInsert k r c) = some r := by
  rw [cacheGet_insert, if_pos rfl]

/-- Case analysis on the `try:` block: it either raises, or returns a record
with the identifier as key, a terminal non-error status, and the record
stored into the cache; in all cases each expensive stage ran at most once. -/
lemma scourTry_spec (o : Oracle) (c : Cache) (n : String) :
    ∃ st evs, scourTry o c n = (st, evs) ∧
      evs.count .searchCall ≤ 1 ∧ evs.count .downloadCall ≤ 1 ∧
      evs.count .extractFieldsCall ≤ 1 ∧
      ((∃ e, st = .error e) ∨
       (∃ res, st = .ok (res, cacheInsert n res c) ∧ res.mpn = n ∧
          res.status ∈ (["not_found", "no_reflow_info", "ok"] : List String))) := by
  unfold scourTry
  split
  · refine ⟨_, _, rfl, ?_, ?_, ?_, Or.inl ⟨_, rfl⟩⟩ <;> decide
  · split
    · refine ⟨_, _, rfl, ?_, ?_, ?_,
        Or.inr ⟨_, rfl, rfl, by simp [naReflowResult]⟩⟩ <;> decide
    · split
      · refine ⟨_, _, rfl, ?_, ?_, ?_,
          Or.inr ⟨_, rfl, rfl, by simp [naReflowResult]⟩⟩ <;> decide
      · split
        · refine ⟨_, _, rfl, ?_, ?_, ?_, Or.inl ⟨_, rfl⟩⟩ <;> decide
        · split
          · refine ⟨_, _, rfl, ?_, ?_, ?_, Or.inl ⟨_, rfl⟩⟩ <;> decide
          · split
            · refine ⟨_, _, rfl, ?_, ?_, ?_,
                Or.inr ⟨_, rfl, rfl, by simp [naReflowResult]⟩⟩ <;> decide
            · refine ⟨_, _, rfl, ?_, ?_, ?_,
                Or.inr ⟨_, rfl, rfl, by simp⟩⟩ <;> decide

/-- The not-applicable short-circuit: no cache access, no events. -/
lemma scour_na (o : Oracle) (c : Cache) (m : String)
    (h : isNaMpn (pyStrip m) = true) :
    scour o c m = (naReflowResult (pyStrip m) "mpn_na", c, []) := by
  unfold scour
  simp [h]

/-- The cache-hit path: the stored record is returned unchanged, no stage runs. -/
lemma scour_hit (o : Oracle) (c : Cache) (m : String) (r : ReflowResult)
    (hna : isNaMpn (pyStrip m) = false) (hc : cacheGet (pyStrip m) c = some r) :
    scour o c m = (r, c, [Ev.cacheLookup]) := by
  unfold scour
  simp [hna, hc]

/-- The cache-miss path: some record with a terminal status comes back, keyed
and stored under the trimmed identifier, with each stage run at most once. -/
lemma scour_miss_spec (o : Oracle) (c : Cache) (m : String)
    (hna : isNaMpn (pyStrip m) = false)
    (hc : cacheGet (pyStrip m) c = none) :
    ∃ res evs, scour o c m = (res, cacheInsert (pyStrip m) res c, evs) ∧
      res.mpn = pyStrip m ∧
      res.status ∈ (["not_found", "no_reflow_info", "ok", "error_or_blocked"] : List String) ∧
      evs.count .searchCall ≤ 1 ∧ evs.count .downloadCall ≤ 1 ∧
      evs.count .extractFieldsCall ≤ 1 := by
  obtain ⟨st, evs0, hst, h1, h2, h3, hcase⟩ := scourTry_spec o c (pyStrip m)
  have hs : scour o c m =
      (match scourTry o c (pyStrip m) with
       | (.ok (res, c2), evs) => (res, c2, .cacheLookup :: evs)
       | (.error _, evs) =>
         (naReflowResult (pyStrip m) "error_or_blocked",
          cacheInsert (pyStrip m) (naReflowResult (pyStrip m) "error_or_blocked") c,
          (Ev.cacheLookup :: evs) ++ [Ev.cacheStore])) := by
    unfold scour
    simp [hna, hc]
  rcases hcase with ⟨e, he⟩ | ⟨res, hok, hmpn, hstat⟩
  · subst he
    rw [hst] at hs
    simp only [] at hs
    refine ⟨_, _, hs, rfl, by simp [naReflowResult], ?_, ?_, ?_⟩ <;>
      simp only [List.count_cons, List.count_append] <;>
      simp <;> omega
  · subst hok
    rw [hst] at hs
    simp only [] at hs
    refine ⟨res, _, hs, hmpn, ?_, ?_, ?_, ?_⟩
    · simp only [List.mem_cons, List.not_mem_nil, or_false] at hstat ⊢
      tauto
    all_goals simp only [List.count_cons]
    all_goals simp
    all_goals omega

/-! ### Order lemmas for the case-insensitive sort -/

lemma lexLe_cons (x y : Char) (xs ys : List Char) :
    lexLe (x :: xs) (y :: ys) = true ↔
      (x.toNat < y.toNat ∨ (x.toNat = y.toNat ∧ lexLe xs ys = true)) := by
  simp only [lexLe]
  by_cases h1 : x.toNat < y.toNat
  · simp [h1]
  · by_cases h2 : y.toNat < x.toNat
    · simp [h1, h2]
      omega
    · have h3 : x.toNat = y.toNat := by omega
      simp [h1, h2, h3]

lemma lexLe_trans (a : List Char) :
    ∀ b c, lexLe a b = true → lexLe b c = true → lexLe a c = true := by
  induction a with
  | nil => intro b c _ _; rfl
  | cons x xs ih =>
    intro b c hab hbc
    cases b with
    | nil => simp [lexLe] at hab
    | cons y ys =>
      cases c with
      | nil => simp [lexLe] at hbc
      | cons z zs =>
        rw [lexLe_cons] at hab hbc ⊢
        rcases hab with h | ⟨he1, h1⟩
        · rcases hbc with h2 | ⟨he2, _⟩
          · exact Or.inl (by omega)
          · exact Or.inl (by omega)
        · rcases hbc with h2 | ⟨he2, h3⟩
          · exact Or.inl (by omega)
          · exact Or.inr ⟨by omega, ih ys zs h1 h3⟩

lemma lexLe_total (a : List Char) :
    ∀ b, (lexLe a b || lexLe b a) = true := by
  induction a with
  | nil => intro b; simp [lexLe]
  | cons x xs ih =>
    intro b
    cases b with
    | nil => simp [lexLe]
    | cons y ys =>
      by_cases h1 : x.toNat < y.toNat
      · simp [lexLe_cons, h1]
      · by_cases h2 : y.toNat < x.toNat
        · simp [lexLe_cons, h1, h2]
        · have h3 : x.toNat = y.toNat := by omega
          rcases Bool.or_eq_true_iff.mp (ih ys) with h | h
          · simp [lexLe_cons, h3, h]
          · simp [lexLe_cons, h3, h]

instance : IsTrans String lowerLeR :=
  ⟨fun _ _ _ hab hbc => lexLe_trans _ _ _ hab hbc⟩

instance : IsTotal String lowerLeR := by
  refine ⟨fun a b => ?_⟩
  rcases Bool.or_eq_true_iff.mp (lexLe_total (pyLowerL a.data) (pyLowerL b.data)) with h | h
  · exact Or.inl h
  · exact Or.inr h

/-! ### Candidate-selection lemmas -/

lemma pickPdfLoop_eq_none (urls : List String)
    (h : ∀ v ∈ urls, hasPdfSub v = false) : pickPdfLoop urls = none := by
  induction urls with
  | nil => rfl
  | cons u rest ih =>
    simp [pickPdfLoop, h u (by simp), ih (fun v hv => h v (by simp [hv]))]

lemma pickPdfLoop_first (l1 : List String) (u : String) (l2 : List String)
    (hu : hasPdfSub u = true) (h : ∀ v ∈ l1, hasPdfSub v = false) :
    pickPdfLoop (l1 ++ u :: l2) = some u := by
  induction l1 with
  | nil => simp [pickPdfLoop, hu]
  | cons v vs ih =>
    simp [pickPdfLoop, h v (by simp), ih (fun w hw => h w (by simp [hw]))]

lemma scourAll_length (o : Oracle) (ms : List String) :
    ∀ c, (scourAll o ms c).1.length = ms.length := by
  induction ms with
  | nil => intro c; rfl
  | cons m rest ih => intro c; simp [scourAll, ih]

/-! ### Concrete oracles used by the witnesses -/

/-- Every external call raises. -/
def oracleDown : Oracle :=
  { search := fun _ => .error .netError,
    httpGet := fun _ => .error .netError,
    pdfToText := fun _ _ => .error .libError }

/-- The search succeeds with zero candidates; everything else raises. -/
def oracleNoHits : Oracle :=
  { search := fun _ => .ok [],
    httpGet := fun _ => .error .netError,
    pdfToText := fun _ _ => .error .libError }

/-- The search yields one `.pdf` URL whose download returns the bytes of
`<html>` (no `%PDF` signature anywhere). -/
def oracleHtmlPage : Oracle :=
  { search := fun _ => .ok ["http://x/a.pdf"],
    httpGet := fun _ => .ok [60, 104, 116, 109, 108, 62],
    pdfToText := fun _ _ => .error .libError }

/-! ## The claims -/

/-- C1: for every identifier string, whatever the (well-formed) cache holds
and whatever any external stage does — succeed or raise — the pipeline
returns exactly one complete `ReflowResult` record: its `mpn` is the trimmed
identifier and its `status` one of the five terminal statuses, and the cache
stays well-formed.  `scour` is total by construction (the `except Exception:`
catch-all is its final `match`), so no stage error ever propagates to the
caller. -/
theorem pipeline_always_returns_record (o : Oracle) (c : Cache) (m : String)
    (hwf : CacheWF c) :
    (scour o c m).1.status ∈ terminalStatuses ∧
    (scour o c m).1.mpn = pyStrip m ∧
    CacheWF (scour o c m).2.1 := by
  by_cases hna : isNaMpn (pyStrip m) = true
  · rw [scour_na o c m hna]
    exact ⟨by simp [naReflowResult, terminalStatuses], rfl, hwf⟩
  · replace hna : isNaMpn (pyStrip m) = false := by simpa using hna
    cases hcg : cacheGet (pyStrip m) c with
    | some r =>
      rw [scour_hit o c m r hna hcg]
      obtain ⟨h1, h2⟩ := hwf _ _ hcg
      exact ⟨h1, h2, hwf⟩
    | none =>
      obtain ⟨res, evs, hsc, hmpn, hstat, _, _, _⟩ := scour_miss_spec o c m hna hcg
      rw [hsc]
      refine ⟨?_, hmpn, ?_⟩
      · simp only [List.mem_cons, List.not_mem_nil, or_false] at hstat
        simp only [terminalStatuses, List.mem_cons, List.not_mem_nil, or_false]
        tauto
      · intro k r hkr
        rw [cacheGet_insert] at hkr
        by_cases hk : k = pyStrip m
        · rw [if_pos hk] at hkr
          have hres : res = r := by injection hkr
          subst hres
          refine ⟨?_, ?_⟩
          · simp only [List.mem_cons, List.not_mem_nil, or_false] at hstat
            simp only [terminalStatuses, List.mem_cons, List.not_mem_nil, or_false]
            tauto
          · rw [hmpn, hk]
        · rw [if_neg hk] at hkr
          exact hwf _ _ hkr

theorem pipeline_always_returns_record_witness :
    (scour oracleDown [] "X").1.status ∈ terminalStatuses ∧
    (scour oracleDown [] "X").1.mpn = pyStrip "X" ∧
    CacheWF (scour oracleDown [] "X").2.1 :=
  pipeline_always_returns_record oracleDown [] "X"
    (fun k r h => by simp [cacheGet] at h)

/-- C2: an identifier whose trimmed value is empty or (case-insensitively)
one of `na`, `n/a`, `tbd`, `unknown`, `-` yields status `mpn_na` with every
profile field `NA`, an unchanged cache, and an empty event log — in
particular zero network calls. -/
theorem na_identifier_short_circuit (o : Oracle) (c : Cache) (m : String)
    (h : pyStrip m = "" ∨ pyLower (pyStrip m) ∈ naTokens) :
    (scour o c m).1.status = "mpn_na" ∧
    (scour o c m).1.reflow = naProfile ∧
    (scour o c m).2.2 = [] ∧
    (scour o c m).2.1 = c := by
  have hna : isNaMpn (pyStrip m) = true := by
    unfold isNaMpn
    rw [pyStrip_idem]
    rcases h with h | h
    · simp [h]
    · by_cases he : pyStrip m = ""
      · simp [he]
      · simp [he, h]
  rw [scour_na o c m hna]
  exact ⟨rfl, rfl, rfl, rfl⟩

theorem na_identifier_short_circuit_witness :
    (scour oracleDown [] " TbD ").1.status = "mpn_na" ∧
    (scour oracleDown [] " TbD ").1.reflow = naProfile ∧
    (scour oracleDown [] " TbD ").2.2 = [] ∧
    (scour oracleDown [] " TbD ").2.1 = ([] : Cache) :=
  na_identifier_short_circuit oracleDown [] " TbD " (Or.inr (by decide))

/-- C3: calling the pipeline twice on the same non-not-applicable identifier
runs the network/extraction stages at most once: the first call runs each of
search, download and field extraction at most once, and the second call —
with any oracle at all — only performs the cache lookup and returns the very
result of the first call, with the cache unchanged. -/
theorem cache_idempotence (o1 o2 : Oracle) (c : Cache) (m : String)
    (r1 : ReflowResult) (c1 : Cache) (l1 : List Ev)
    (hna : isNaMpn (pyStrip m) = false)
    (h1 : scour o1 c m = (r1, c1, l1)) :
    scour o2 c1 m = (r1, c1, [Ev.cacheLookup]) ∧
    l1.count .searchCall ≤ 1 ∧ l1.count .downloadCall ≤ 1 ∧
    l1.count .extractFieldsCall ≤ 1 := by
  cases hcg : cacheGet (pyStrip m) c with
  | some r =>
    have e1 := scour_hit o1 c m r hna hcg
    rw [h1] at e1
    simp only [Prod.mk.injEq] at e1
    obtain ⟨hr, hc2, hl⟩ := e1
    rw [hr, hc2, hl]
    exact ⟨scour_hit o2 c m r hna hcg, by decide, by decide, by decide⟩
  | none =>
    obtain ⟨res, evs, hsc, hmpn, hstat, hq1, hq2, hq3⟩ := scour_miss_spec o1 c m hna hcg
    rw [h1] at hsc
    simp only [Prod.mk.injEq] at hsc
    obtain ⟨hr, hc2, hl⟩ := hsc
    rw [hr, hc2, hl]
    exact ⟨scour_hit o2 _ m res hna (cacheGet_insert_self _ _ _), hq1, hq2, hq3⟩

theorem cache_idempotence_witness :
    scour oracleDown [("ABC", naReflowResult "ABC" "not_found")] "ABC" =
      (naReflowResult "ABC" "not_found",
       [("ABC", naReflowResult "ABC" "not_found")], [Ev.cacheLookup]) ∧
    ([Ev.cacheLookup, Ev.searchCall, Ev.cacheStore] : List Ev).count .searchCall ≤ 1 ∧
    ([Ev.cacheLookup, Ev.searchCall, Ev.cacheStore] : List Ev).count .downloadCall ≤ 1 ∧
    ([Ev.cacheLookup, Ev.searchCall, Ev.cacheStore] : List Ev).count .extractFieldsCall ≤ 1 :=
  cache_idempotence oracleNoHits oracleDown [] "ABC"
    (naReflowResult "ABC" "not_found")
    [("ABC", naReflowResult "ABC" "not_found")]
    [Ev.cacheLookup, Ev.searchCall, Ev.cacheStore]
    (by decide) (by decide)

/-- C7: when the identifier reaches the download stage (non-NA, cache miss,
search produced candidates, one was picked) and the downloaded bytes do not
contain the `%PDF` signature case-insensitively within their first 512
bytes, the result status is `error_or_blocked`, the profile is all-`NA`, and
the Field Extraction Engine is never invoked. -/
theorem invalid_signature_error_or_blocked (o : Oracle) (c : Cache) (m : String)
    (urls : List String) (url : String) (data : List Nat)
    (hna : isNaMpn (pyStrip m) = false)
    (hmiss : cacheGet (pyStrip m) c = none)
    (hs : o.search (pyStrip m) = .ok urls)
    (hp : pickPdfLink urls (pyStrip m) = some url)
    (hne : url ≠ "")
    (hg : o.httpGet url = .ok data)
    (hmagic : hasPdfMagic data = false) :
    (scour o c m).1.status = "error_or_blocked" ∧
    Ev.extractFieldsCall ∉ (scour o c m).2.2 ∧
    (scour o c m).1.reflow = naProfile := by
  have hd : downloadPdfBytes o url =
      .error (.valueError "Downloaded content is not a PDF") := by
    unfold downloadPdfBytes
    rw [hg]
    simp [hmagic]
  have htry : scourTry o c (pyStrip m) =
      (.error (.valueError "Downloaded content is not a PDF"),
       [Ev.searchCall, Ev.downloadCall]) := by
    unfold scourTry
    rw [hs]
    simp [hp, hne, hd]
  have hsc : scour o c m =
      (naReflowResult (pyStrip m) "error_or_blocked",
       cacheInsert (pyStrip m) (naReflowResult (pyStrip m) "error_or_blocked") c,
       [Ev.cacheLookup, Ev.searchCall, Ev.downloadCall, Ev.cacheStore]) := by
    unfold scour
    simp [hna, hmiss, htry]
  rw [hsc]
  refine ⟨rfl, ?_, rfl⟩
  show Ev.extractFieldsCall ∉
    [Ev.cacheLookup, Ev.searchCall, Ev.downloadCall, Ev.cacheStore]
  decide

theorem invalid_signature_error_or_blocked_witness :
    (scour oracleHtmlPage [] "ABC").1.status = "error_or_blocked" ∧
    Ev.extractFieldsCall ∉ (scour oracleHtmlPage [] "ABC").2.2 ∧
    (scour oracleHtmlPage [] "ABC").1.reflow = naProfile :=
  invalid_signature_error_or_blocked oracleHtmlPage [] "ABC"
    ["http://x/a.pdf"] "http://x/a.pdf" [60, 104, 116, 109, 108, 62]
    (by decide) rfl rfl (by decide) (by decide) rfl (by decide)

/-- C8: when the identifier is non-NA, not cached, and the search succeeds
with an empty candidate list, the result is exactly the all-`NA`
`not_found` record — never `error_or_blocked`. -/
theorem empty_candidates_not_found (o : Oracle) (c : Cache) (m : String)
    (hna : isNaMpn (pyStrip m) = false)
    (hmiss : cacheGet (pyStrip m) c = none)
    (hs : o.search (pyStrip m) = .ok []) :
    (scour o c m).1 = naReflowResult (pyStrip m) "not_found" ∧
    (scour o c m).1.status = "not_found" ∧
    (scour o c m).1.status ≠ "error_or_blocked" ∧
    (scour o c m).1.reflow = naProfile := by
  have htry : scourTry o c (pyStrip m) =
      (.ok (naReflowResult (pyStrip m) "not_found",
            cacheInsert (pyStrip m) (naReflowResult (pyStrip m) "not_found") c),
       [Ev.searchCall, Ev.cacheStore]) := by
    unfold scourTry
    rw [hs]
    simp [pickPdfLink, pickPdfLoop]
  have hsc : scour o c m =
      (naReflowResult (pyStrip m) "not_found",
       cacheInsert (pyStrip m) (naReflowResult (pyStrip m) "not_found") c,
       [Ev.cacheLookup, Ev.searchCall, Ev.cacheStore]) := by
    unfold scour
    simp [hna, hmiss, htry]
  rw [hsc]
  refine ⟨rfl, rfl, ?_, rfl⟩
  show ("not_found" : String) ≠ "error_or_blocked"
  decide

theorem empty_candidates_not_found_witness :
    (scour oracleNoHits [] "ABC").1 = naReflowResult (pyStrip "ABC") "not_found" ∧
    (scour oracleNoHits [] "ABC").1.status = "not_found" ∧
    (scour oracleNoHits [] "ABC").1.status ≠ "error_or_blocked" ∧
    (scour oracleNoHits [] "ABC").1.reflow = naProfile :=
  empty_candidates_not_found oracleNoHits [] "ABC" (by decide) rfl rfl

/-- C9: candidate selection — on a non-empty list the picked URL is the
first containing `".pdf"` case-insensitively; with no `.pdf` candidate the
first element wins; an empty list picks nothing. -/
theorem pick_pdf_link_selection (urls : List String) (mpn : String) :
    (urls = [] → pickPdfLink urls mpn = none) ∧
    (∀ l1 u l2, urls = l1 ++ u :: l2 → hasPdfSub u = true →
        (∀ v ∈ l1, hasPdfSub v = false) → pickPdfLink urls mpn = some u) ∧
    ((∀ v ∈ urls, hasPdfSub v = false) →
        ∀ h t, urls = h :: t → pickPdfLink urls mpn = some h) := by
  refine ⟨?_, ?_, ?_⟩
  · rintro rfl; rfl
  · rintro l1 u l2 rfl hu hl
    unfold pickPdfLink
    rw [pickPdfLoop_first l1 u l2 hu hl]
  · rintro hall h t rfl
    unfold pickPdfLink
    rw [pickPdfLoop_eq_none _ hall]
    rfl

theorem pick_pdf_link_selection_witness :
    pickPdfLink [] "m" = none ∧
    pickPdfLink ["http://a.html", "http://b.PDF"] "m" = some "http://b.PDF" ∧
    pickPdfLink ["http://a.html", "http://b.html"] "m" = some "http://a.html" :=
  ⟨(pick_pdf_link_selection [] "m").1 rfl,
   (pick_pdf_link_selection ["http://a.html", "http://b.PDF"] "m").2.1
     ["http://a.html"] "http://b.PDF" [] rfl (by decide) (by decide),
   (pick_pdf_link_selection ["http://a.html", "http://b.html"] "m").2.2
     (by decide) "http://a.html" ["http://b.html"] rfl⟩

/-- C10: a not-applicable identifier touches the cache in no way (no lookup,
no store: the event log stays empty and the cache unchanged), while a
non-NA call always leaves its own result stored under the trimmed
identifier; consequently — cache keys being never not-applicable — after
any call the cache holds an entry for the trimmed identifier exactly when
the identifier was not classified not-applicable. -/
theorem cache_population_invariant (o : Oracle) (c : Cache) (m : String)
    (hkeys : CacheKeysOk c) :
    (isNaMpn (pyStrip m) = true →
        (scour o c m).2.1 = c ∧ (scour o c m).2.2 = []) ∧
    (isNaMpn (pyStrip m) = false →
        cacheGet (pyStrip m) (scour o c m).2.1 = some (scour o c m).1) ∧
    CacheKeysOk (scour o c m).2.1 ∧
    ((cacheGet (pyStrip m) (scour o c m).2.1).isSome ↔
        isNaMpn (pyStrip m) = false) := by
  by_cases hna : isNaMpn (pyStrip m) = true
  · rw [scour_na o c m hna]
    have hgetc : cacheGet (pyStrip m) c = none := by
      cases hg : cacheGet (pyStrip m) c with
      | none => rfl
      | some r => simpa [hna] using hkeys _ _ hg
    refine ⟨fun _ => ⟨rfl, rfl⟩, ?_, hkeys, ?_⟩
    · intro hf
      rw [hf] at hna
      exact absurd hna (by decide)
    · simp [hgetc, hna]
  · replace hna : isNaMpn (pyStrip m) = false := by simpa using hna
    cases hcg : cacheGet (pyStrip m) c with
    | some r =>
      rw [scour_hit o c m r hna hcg]
      refine ⟨?_, fun _ => hcg, hkeys, ?_⟩
      · intro hf
        rw [hf] at hna
        exact absurd hna (by decide)
      · simp [hcg, hna]
    | none =>
      obtain ⟨res, evs, hsc, hmpn, hstat, _, _, _⟩ := scour_miss_spec o c m hna hcg
      rw [hsc]
      refine ⟨?_, fun _ => cacheGet_insert_self _ _ _, ?_, ?_⟩
      · intro hf
        rw [hf] at hna
        exact absurd hna (by decide)
      · intro k r hkr
        rw [cacheGet_insert] at hkr
        by_cases hk : k = pyStrip m
        · rw [hk]
          exact hna
        · rw [if_neg hk] at hkr
          exact hkeys _ _ hkr
      · simp [cacheGet_insert_self, hna]

theorem cache_population_invariant_witness :
    (isNaMpn (pyStrip "X") = true →
        (scour oracleDown [] "X").2.1 = ([] : Cache) ∧ (scour oracleDown [] "X").2.2 = []) ∧
    (isNaMpn (pyStrip "X") = false →
        cacheGet (pyStrip "X") (scour oracleDown [] "X").2.1 = some (scour oracleDown [] "X").1) ∧
    CacheKeysOk (scour oracleDown [] "X").2.1 ∧
    ((cacheGet (pyStrip "X") (scour oracleDown [] "X").2.1).isSome ↔
        isNaMpn (pyStrip "X") = false) :=
  cache_population_invariant oracleDown [] "X" (fun k r h => by simp [cacheGet] at h)

/-- C4 counterexample: the source text `"TAL: 1.5 min"` renders the
time-above-liquidus field as `"1.5 min"` — the matched `min` unit token is
passed through verbatim, not converted to `"90 s"`.  (`_to_seconds`, which
would perform the ×60 conversion, is never called by the extraction path.) -/
theorem tal_minutes_conversion_cex :
    (extractReflowFieldsFromText "TAL: 1.5 min").tal_s = "1.5 min" ∧
    ("1.5 min" : String) ≠ "90 s" := by
  exact ⟨by rfl, by decide⟩

/-- C4 amended: duration fields keep their matched unit token verbatim in
the rendered output (no minutes-to-seconds conversion); `"TAL: 1.5 min"`
yields the field `"1.5 min"`.  The conversion helper `_to_seconds` — which
does map 1.5 min to 90 s — exists in the source but is dead code. -/
theorem tal_minutes_passthrough :
    (extractReflowFieldsFromText "TAL: 1.5 min").tal_s = "1.5 min" ∧
    toSeconds (3/2 : ℚ) "min" = 90 := by
  constructor
  · rfl
  · unfold toSeconds
    rw [show pyLower "min" = "min" from rfl]
    rw [if_neg (by decide), if_pos (by decide)]
    norm_num

/-- C6 counterexample: the both-values render uses an en-dash (U+2013), so
the peak-temperature field for `"Peak temperature: 245 to 260 °C"` is
`"245–260 °C"`, which differs from the claimed ASCII-hyphen string
`"245-260 °C"`. -/
theorem range_render_hyphen_cex :
    (extractReflowFieldsFromText "Peak temperature: 245 to 260 °C").tp_c = "245–260 °C" ∧
    ("245–260 °C" : String) ≠ "245-260 °C" := by
  exact ⟨by rfl, by decide⟩

/-- C6 amended: with both a low and a high value captured the field renders
as low‐en-dash‐high‐space‐unit — `"Peak temperature: 245 to 260 °C"` gives
`"245–260 °C"` (the `to` separator normalised to the en-dash) — and with a
single captured value as value‐space‐unit: `"Tp: 260°C"` gives `"260 °C"`. -/
theorem range_render_en_dash :
    (extractReflowFieldsFromText "Peak temperature: 245 to 260 °C").tp_c = "245–260 °C" ∧
    (extractReflowFieldsFromText "Tp: 260°C").tp_c = "260 °C" := by
  exact ⟨by rfl, by rfl⟩

/-- C5 counterexample: the identifiers `["ABC", "abc"]` form one
case-insensitive duplicate group, yet the agent deduplicates with plain
`set()` — exact, case-sensitive equality — and so produces two result rows
(and keeps both case-variants), not the single row the claim requires. -/
theorem dedup_case_insensitive_cex :
    (runComponentAgent oracleDown [] ["ABC", "abc"]).1.length = 2 ∧
    "ABC" ∈ uniqueMpns ["ABC", "abc"] ∧ "abc" ∈ uniqueMpns ["ABC", "abc"] := by
  refine ⟨?_, ?_, ?_⟩ <;> decide

/-- C5 amended: the identifier list (cells trimmed, blanks replaced by
`"NA"`) is deduplicated by exact, case-sensitive string equality; the
deduplicated list is sorted case-insensitively (ties between case-variants
in unspecified `set` order) and the output has exactly one `ReflowResult`
per distinct exact identifier, in that order. -/
theorem unique_mpn_dedup_ordering (cells : List String) :
    (uniqueMpns cells).Nodup ∧
    (uniqueMpns cells).Sorted lowerLeR ∧
    (∀ s, s ∈ uniqueMpns cells ↔ s ∈ preprocMpns cells) ∧
    ∀ (o : Oracle) (c : Cache),
      (runComponentAgent o c cells).1.length = (uniqueMpns cells).length := by
  refine ⟨?_, ?_, ?_, ?_⟩
  · exact (List.perm_insertionSort lowerLeR _).symm.nodup (List.nodup_dedup _)
  · exact List.sorted_insertionSort lowerLeR _
  · intro s
    exact ((List.perm_insertionSort lowerLeR _).mem_iff).trans List.mem_dedup
  · intro o c
    exact scourAll_length o _ c

end ReflowProfiler
